import Mathlib

/-!
Verification of the source execution and instrumentation runtime of the
`tuteng/vector` repository against its natural-language specification.

The repository provides two source files:
* `src/internal_events/unix.rs` — the four unix-socket InternalEvent
  variants and their `emit` implementations (fully embedded below);
* `src/sources/http_scrape/integration_tests.rs` — integration tests that
  exercise the http-scrape Source Runtime, the Decoding Pipeline and the
  Shutdown Coordinator.  Those three components themselves are not under
  `src/`, so their behaviour is modelled from the specification; every
  such definition carries a doc comment starting with
  `Modelled from the spec:`.

Machine side effects are made explicit: an `emit` call is embedded as a
pure function returning an `Emission` — the diagnostic lines it logs and
the counter increments it performs.
-/

namespace VectorSrc

/-- Severity of a diagnostic line (the `debug!` / `error!` level used by an
`emit` implementation). -/
inductive LogLevel where
| debug : LogLevel
| error : LogLevel
deriving DecidableEq

/-- One rendered diagnostic line: level, message template and the attached
field values. -/
structure Diagnostic where
  level : LogLevel
  message : String
  fields : List (String × String)
deriving DecidableEq

/-- One `counter!` call: counter name, increment amount and tag set (in the
order the source lists the tags). -/
structure CounterIncrement where
  name : String
  amount : Nat
  tags : List (String × String)
deriving DecidableEq

/-- Everything one `emit` call does: the diagnostic lines it renders and the
counter increments it performs, in order. -/
structure Emission where
  diagnostics : List Diagnostic
  counters : List CounterIncrement
deriving DecidableEq

/-- Total amount by which an emission increments the counter of the given
name and exact tag set. -/
def counterDelta (e : Emission) (n : String) (tags : List (String × String)) : Nat :=
  ((e.counters.filter fun c => c.name == n && c.tags == tags).map
    (fun c => c.amount)).sum

/-- The `error_type` tag constants of `vector_common::internal_event`. -/
def CONNECTION_FAILED : String := "connection_failed"

/-- The `error_type` tag constant `error_type::WRITER_FAILED`. -/
def WRITER_FAILED : String := "writer_failed"

/-- The `error_stage` tag constant `error_stage::PROCESSING`. -/
def PROCESSING : String := "processing"

/-- The `error_stage` tag constant `error_stage::SENDING`. -/
def SENDING : String := "sending"

/-- Embedding of `UnixSocketConnectionEstablished::emit`
(`src/internal_events/unix.rs` lines 14–19): a debug line plus the legacy
counter `connection_established_total` tagged `mode = unix`. -/
def UnixSocketConnectionEstablished.emit (path : String) : Emission :=
  ⟨[⟨.debug, "Connected.", [("path", path)]⟩],
   [⟨"connection_established_total", 1, [("mode", "unix")]⟩]⟩

/-- Modelled from the spec: the body of `SocketOutgoingConnectionError` is
not under `src/` (only its call site in `UnixSocketOutgoingConnectionError::emit`
is).  Per §4.4 it is a current-taxonomy error event: one error diagnostic and
a `component_errors_total` increment tagged with an `error_type` of
CONNECTION_FAILED and a stage; the outgoing direction makes it SENDING. -/
def SocketOutgoingConnectionError.emit (error : String) : Emission :=
  ⟨[⟨.error, "Unable to connect.",
     [("error", error), ("error_type", CONNECTION_FAILED), ("stage", SENDING)]⟩],
   [⟨"component_errors_total", 1,
     [("error_type", CONNECTION_FAILED), ("stage", SENDING)]⟩]⟩

/-- Embedding of `UnixSocketOutgoingConnectionError::emit`
(`src/internal_events/unix.rs` lines 26–34): it delegates to
`SocketOutgoingConnectionError` and then bumps the deprecated legacy counter
`connection_failed_total` tagged `mode = unix`. -/
def UnixSocketOutgoingConnectionError.emit (error : String) : Emission :=
  let inner := SocketOutgoingConnectionError.emit error
  ⟨inner.diagnostics,
   inner.counters ++ [⟨"connection_failed_total", 1, [("mode", "unix")]⟩]⟩

/-- Embedding of `UnixSocketError::emit` (`src/internal_events/unix.rs`
lines 42–59): one error line, a `component_errors_total` increment tagged
`error_type = CONNECTION_FAILED`, `stage = PROCESSING`, and the deprecated
legacy counter `connection_errors_total` tagged `mode = unix`. -/
def UnixSocketError.emit (error : String) (path : String) : Emission :=
  ⟨[⟨.error, "Unix socket error.",
     [("error", error), ("path", path),
      ("error_type", CONNECTION_FAILED), ("stage", PROCESSING)]⟩],
   [⟨"component_errors_total", 1,
     [("error_type", CONNECTION_FAILED), ("stage", PROCESSING)]⟩,
    ⟨"connection_errors_total", 1, [("mode", "unix")]⟩]⟩

/-- Embedding of `UnixSocketFileDeleteError::emit`
(`src/internal_events/unix.rs` lines 67–84): one error line and a single
`component_errors_total` increment tagged `error_code = delete_socket_file`,
`error_type = WRITER_FAILED`, `stage = PROCESSING`; no legacy counter. -/
def UnixSocketFileDeleteError.emit (path : String) (error : String) : Emission :=
  ⟨[⟨.error, "Failed in deleting unix socket file.",
     [("path", path), ("error", error),
      ("error_code", "delete_socket_file"),
      ("error_type", WRITER_FAILED), ("stage", PROCESSING)]⟩],
   [⟨"component_errors_total", 1,
     [("error_code", "delete_socket_file"),
      ("error_type", WRITER_FAILED), ("stage", PROCESSING)]⟩]⟩

/-- The closed set of InternalEvent variants of `src/internal_events/unix.rs`
with the inputs each carries (error values and paths embedded as the strings
their `Display`/`Debug` rendering produces). -/
inductive UnixInternalEvent where
| connectionEstablished : String → UnixInternalEvent
| outgoingConnectionError : String → UnixInternalEvent
| socketError : String → String → UnixInternalEvent
| fileDeleteError : String → String → UnixInternalEvent
deriving DecidableEq

/-- Dispatch of `InternalEvent::emit` over the unix.rs variants. -/
def UnixInternalEvent.emit : UnixInternalEvent → Emission
| .connectionEstablished path => UnixSocketConnectionEstablished.emit path
| .outgoingConnectionError e => UnixSocketOutgoingConnectionError.emit e
| .socketError e path => UnixSocketError.emit e path
| .fileDeleteError path e => UnixSocketFileDeleteError.emit path e

/-- Modelled from the spec: the unix-socket Source Runtime's shutdown
cleanup is not under `src/` (only `UnixSocketFileDeleteError` is).  Per
§4.1 and §7, at shutdown the runtime attempts to remove the socket file;
a removal failure (any OS error, e.g. file not found or permission denied)
emits exactly one InternalEvent and does not block or fail the shutdown:
the completion acknowledgement is still sent, so the returned flag — the
shutdown outcome seen by `shutdown_source` — is `true` either way.  The
delete attempt's result is passed in explicitly. -/
def shutdownCleanup (path : String) (deleteResult : Except String Unit) :
    List Emission × Bool :=
  match deleteResult with
  | Except.ok _ => ([], true)
  | Except.error e => ([UnixSocketFileDeleteError.emit path e], true)

/-- An externally observable action of one Source task: delivering an Event
(identified by a payload number) to the Output Channel, or sending the
shutdown completion acknowledgement. -/
inductive TaskAction where
| deliver : Nat → TaskAction
| ack : TaskAction
deriving DecidableEq

/-- Modelled from the spec: the poll-driven Source Runtime loop is not under
`src/` (only its integration tests are).  Per §4.1, each tick performs one
fetch→decode→forward attempt; once the shutdown signal has been received the
task starts no new attempt, sends the completion acknowledgement and exits.
`fetch t` gives the Events forwarded by the attempt at tick `t`; the signal
is received before tick `signalAt`.  The result is the task's complete
action trace. -/
def runTask (fetch : Nat → List Nat) (signalAt : Nat) : List TaskAction :=
  ((List.range signalAt).flatMap fun t => (fetch t).map TaskAction.deliver)
    ++ [TaskAction.ack]

/-- Position of the acknowledgement in a task trace, if any. -/
def ackIndex : List TaskAction → Option Nat
| [] => none
| TaskAction.ack :: _ => some 0
| TaskAction.deliver _ :: rest => (ackIndex rest).map (· + 1)

/-- Modelled from the spec: `shutdown_source(id, deadline)` of the Shutdown
Coordinator is not under `src/` (only its test caller is).  Per §4.2 it
sends the cancellation signal and then waits until either the
acknowledgement arrives (returns `true`) or the deadline elapses (returns
`false`).  Time is measured in trace positions: the call returns `true`
exactly when the task's acknowledgement occurs at a position within the
deadline. -/
def shutdown_source (tr : List TaskAction) (deadline : Nat) : Bool :=
  match ackIndex tr with
  | some i => decide (i ≤ deadline)
  | none => false

/-- The kind discriminator of an Event. -/
inductive EventKind where
| log : EventKind
| metric : EventKind
| trace : EventKind
deriving DecidableEq

/-- An Event: a tagged union of Log, Metric and Trace, each an ordered
mapping of field name to value. -/
structure Event where
  kind : EventKind
  fields : List (String × String)
deriving DecidableEq

/-- The decoding format selector of the source configuration. -/
inductive DecodingFormat where
| bytes : DecodingFormat
| json : DecodingFormat
| nativeJson : DecodingFormat
deriving DecidableEq

/-- Modelled from the spec: message-based (whole-body) framing, §4.3 —
the entire payload is one framed record; an empty body frames to no
record. -/
def frames (payload : String) : List String :=
  if payload = "" then [] else [payload]

/-- Modelled from the spec: the Json format parses the record as one JSON
document, §4.3.  A document is modelled as a flat object of comma-separated
`key:value` members; member splitting fails on any other shape. -/
def parseJsonMembers (s : String) : Option (List (String × String)) :=
  (s.splitOn ",").mapM fun kv =>
    match kv.splitOn ":" with
    | [k, v] => some (k, v)
    | _ => none

/-- Modelled from the spec: per-record format decoding, §4.3.  Bytes: the
record becomes one Log whose body field is the raw content, always
succeeding.  Json: syntax failure is a decode error, success is one Log
whose fields mirror the document's members.  NativeStructured: the record
declares its own event kind through a leading discriminator; a missing
discriminator is a decode error. -/
def decodeRecord (fmt : DecodingFormat) (record : String) : Except String Event :=
  match fmt with
  | .bytes => Except.ok ⟨.log, [("body", record)]⟩
  | .json =>
    if record.startsWith "\x7b" && record.endsWith "\x7d" then
      match parseJsonMembers ((record.drop 1).dropRight 1) with
      | some fs => Except.ok ⟨.log, fs⟩
      | none => Except.error "invalid json"
    else Except.error "invalid json"
  | .nativeJson =>
    if record.startsWith "log:" then
      Except.ok ⟨.log, [("body", record.drop 4)]⟩
    else if record.startsWith "metric:" then
      Except.ok ⟨.metric, [("body", record.drop 7)]⟩
    else if record.startsWith "trace:" then
      Except.ok ⟨.trace, [("body", record.drop 6)]⟩
    else Except.error "missing discriminator"

/-- Stamping of an Event with the `source_type` tag, §4.3. -/
def stampSourceType (sourceType : String) (e : Event) : Event :=
  ⟨e.kind, e.fields ++ [("source_type", sourceType)]⟩

/-- Outcome of decoding one payload: the Events produced, in order, and the
decode error descriptors of the failed records. -/
structure DecodeOutcome where
  events : List Event
  errors : List String
deriving DecidableEq

/-- Modelled from the spec: the Decoding Pipeline, §4.3 — frame the payload
into records, decode each record by format, and stamp every produced Event
with `source_type` before it is returned; a failed record contributes an
error descriptor and no Event. -/
def decodePipeline (sourceType : String) (fmt : DecodingFormat)
    (payload : String) : DecodeOutcome :=
  let results := (frames payload).map (decodeRecord fmt)
  ⟨results.filterMap fun r =>
      match r with
      | Except.ok e => some (stampSourceType sourceType e)
      | Except.error _ => none,
   results.filterMap fun r =>
      match r with
      | Except.ok _ => none
      | Except.error m => some m⟩

/-- Result of one transport fetch of a poll-mode attempt: the response body,
or a transport failure (unreachable endpoint, non-2xx response, auth
failure, TLS failure) described by a message. -/
inductive FetchResult where
| ok : String → FetchResult
| err : String → FetchResult
deriving DecidableEq

/-- An InternalEvent emitted by the poll-mode Source Runtime: a
ConnectionError for a failed attempt, or a DecodeError for a failed
record. -/
inductive RuntimeInternalEvent where
| connectionError : String → RuntimeInternalEvent
| decodeError : String → RuntimeInternalEvent
deriving DecidableEq

/-- Modelled from the spec: one poll-mode attempt, §4.1 — fetch, decode,
forward.  A transport failure is converted to exactly one ConnectionError
InternalEvent and yields no Events; a successful fetch runs the Decoding
Pipeline, forwarding its Events and emitting one DecodeError InternalEvent
per failed record. -/
def pollAttempt (sourceType : String) (fmt : DecodingFormat)
    (r : FetchResult) : List Event × List RuntimeInternalEvent :=
  match r with
  | .err m => ([], [RuntimeInternalEvent.connectionError m])
  | .ok body =>
    let out := decodePipeline sourceType fmt body
    (out.events, out.errors.map RuntimeInternalEvent.decodeError)

/-- Modelled from the spec: the poll-mode scheduling loop, §4.1 — one
attempt per tick, each attempt's outcome isolated so a failure is never
fatal to the Source; the Events and InternalEvents of all attempts are
accumulated in order. -/
def pollRun (sourceType : String) (fmt : DecodingFormat) :
    List FetchResult → List Event × List RuntimeInternalEvent
| [] => ([], [])
| r :: rs =>
  let o := pollAttempt sourceType fmt r
  let rest := pollRun sourceType fmt rs
  (o.1 ++ rest.1, o.2 ++ rest.2)

/-- Modelled from the spec: §8 — for a run of duration `D` with interval
`T`, the number of completed attempts is within one of `D / T`. -/
def attemptsWithinOne (D T n : Nat) : Prop :=
  D / T ≤ n + 1 ∧ n ≤ D / T + 1

/-- The Basic-auth credential setting of a poll-mode source configuration. -/
inductive AuthSetting where
| noCreds : AuthSetting
| basic : String → String → AuthSetting
deriving DecidableEq

/-- Modelled from the spec: an auth-protected endpoint, §8 and the
integration tests — a request with no credentials or with Basic
credentials other than the required pair is rejected as a transport-level
auth failure; the required pair yields the response body. -/
def protectedFetch (requiredUser requiredPass : String) (body : String)
    (a : AuthSetting) : FetchResult :=
  match a with
  | .noCreds => FetchResult.err "401 unauthorized"
  | .basic u p =>
    if u = requiredUser ∧ p = requiredPass then FetchResult.ok body
    else FetchResult.err "401 unauthorized"

/-- A concrete fetch schedule used to instantiate trace theorems: the
attempt at tick `t` delivers the single Event `t`. -/
def exampleFetch (t : Nat) : List Nat := [t]

/-- Claim C1: emitting UnixSocketError increments `component_errors_total`
tagged `error_type = CONNECTION_FAILED`, `stage = PROCESSING` by exactly 1
and the legacy `connection_errors_total` tagged `mode = unix` by exactly 1,
in the same single emission, and increments no other counter: its counter
list is exactly those two increments. -/
theorem unixSocketError_emit_counters (error path : String) :
    counterDelta (UnixSocketError.emit error path) "component_errors_total"
      [("error_type", CONNECTION_FAILED), ("stage", PROCESSING)] = 1 ∧
    counterDelta (UnixSocketError.emit error path) "connection_errors_total"
      [("mode", "unix")] = 1 ∧
    (UnixSocketError.emit error path).counters =
      [⟨"component_errors_total", 1,
         [("error_type", CONNECTION_FAILED), ("stage", PROCESSING)]⟩,
       ⟨"connection_errors_total", 1, [("mode", "unix")]⟩] :=
  ⟨rfl, rfl, rfl⟩

/-- Claim C2: a failure to delete the unix socket file at shutdown (any
error value, covering a nonexistent file and a permission error) emits
exactly one InternalEvent, whose `component_errors_total` increment carries
the tag `error_code = delete_socket_file`, and the shutdown still completes:
the cleanup reports success to the coordinator, so `shutdown_source` can
still return true within its deadline. -/
theorem socket_file_delete_failure_isolated (path err : String) :
    (shutdownCleanup path (Except.error err)).1 =
      [UnixSocketFileDeleteError.emit path err] ∧
    (shutdownCleanup path (Except.error err)).1.length = 1 ∧
    counterDelta (UnixSocketFileDeleteError.emit path err)
      "component_errors_total"
      [("error_code", "delete_socket_file"),
       ("error_type", WRITER_FAILED), ("stage", PROCESSING)] = 1 ∧
    (shutdownCleanup path (Except.error err)).2 = true :=
  ⟨rfl, rfl, rfl, rfl⟩

/-- Claim C4: for every InternalEvent variant of unix.rs and every input,
`emit` returns normally — it is a total function whose entire effect is one
diagnostic line plus a list of counter increments (each of amount 1); there
is no failing, panicking or blocking path in its embedding. -/
theorem unixInternalEvent_emit_returns_normally (ev : UnixInternalEvent) :
    (UnixInternalEvent.emit ev).diagnostics.length = 1 ∧
    1 ≤ (UnixInternalEvent.emit ev).counters.length ∧
    ((UnixInternalEvent.emit ev).counters.all fun c => c.amount == 1) = true := by
  cases ev with
  | connectionEstablished path => exact ⟨rfl, Nat.le_refl 1, rfl⟩
  | outgoingConnectionError e => exact ⟨rfl, Nat.le_succ 1, rfl⟩
  | socketError e path => exact ⟨rfl, Nat.le_succ 1, rfl⟩
  | fileDeleteError path e => exact ⟨rfl, Nat.le_refl 1, rfl⟩

/-- Claim C9: the legacy unix-mode connection counters are produced as
named — establishing a unix socket connection increments
`connection_established_total` tagged `mode = unix` by exactly 1, and a
failed outgoing unix socket connection increments `connection_failed_total`
tagged `mode = unix` by exactly 1. -/
theorem legacy_unix_connection_counters (path error : String) :
    counterDelta (UnixSocketConnectionEstablished.emit path)
      "connection_established_total" [("mode", "unix")] = 1 ∧
    counterDelta (UnixSocketOutgoingConnectionError.emit error)
      "connection_failed_total" [("mode", "unix")] = 1 :=
  ⟨rfl, rfl⟩

/-- Claim C10: emitting UnixSocketFileDeleteError increments only the
generic `component_errors_total` counter, tagged
`error_code = delete_socket_file`, `error_type = WRITER_FAILED`,
`stage = PROCESSING`, and increments no legacy per-mode counter — every
counter it touches is `component_errors_total` — unlike UnixSocketError,
which also bumps `connection_errors_total` tagged `mode = unix`. -/
theorem fileDeleteError_no_legacy_counter (path error : String) :
    counterDelta (UnixSocketFileDeleteError.emit path error)
      "component_errors_total"
      [("error_code", "delete_socket_file"),
       ("error_type", WRITER_FAILED), ("stage", PROCESSING)] = 1 ∧
    (UnixSocketFileDeleteError.emit path error).counters.length = 1 ∧
    ((UnixSocketFileDeleteError.emit path error).counters.all
      fun c => c.name == "component_errors_total") = true ∧
    counterDelta (UnixSocketError.emit error path) "connection_errors_total"
      [("mode", "unix")] = 1 :=
  ⟨rfl, rfl, rfl, rfl⟩

/-- In a trace made of a prefix with no acknowledgement followed by the
acknowledgement, the acknowledgement's position is the prefix length. -/
theorem ackIndex_append_ack (l : List TaskAction)
    (h : ∀ a ∈ l, a ≠ TaskAction.ack) :
    ackIndex (l ++ [TaskAction.ack]) = some l.length := by
  induction l with
  | nil => rfl
  | cons a l ih =>
    cases a with
    | deliver k =>
      simp only [List.cons_append, ackIndex, List.append_eq]
      rw [ih fun b hb => h b (List.mem_cons_of_mem _ hb)]
      rfl
    | ack => exact absurd rfl (h _ (List.mem_cons_self _ _))

/-- Every action a task takes before its acknowledgement is a delivery. -/
theorem runTask_body_no_ack (fetch : Nat → List Nat) (signalAt : Nat) :
    ∀ a ∈ (List.range signalAt).flatMap
        (fun t => (fetch t).map TaskAction.deliver),
      a ≠ TaskAction.ack := by
  intro a ha
  rcases List.mem_flatMap.1 ha with ⟨t, _, hmem⟩
  rcases List.mem_map.1 hmem with ⟨k, _, rfl⟩
  exact fun hc => TaskAction.noConfusion hc

/-- Claim C3: if `shutdown_source` returns true for a source task's trace,
the task has terminated — the whole trace fits within the deadline and its
final action is the acknowledgement — and no Event from the source is
delivered to the Output Channel at any time after the deadline. -/
theorem shutdown_source_true_terminates (fetch : Nat → List Nat)
    (signalAt deadline : Nat)
    (h : shutdown_source (runTask fetch signalAt) deadline = true) :
    ((runTask fetch signalAt).length ≤ deadline + 1 ∧
     (runTask fetch signalAt).get? ((runTask fetch signalAt).length - 1) =
       some TaskAction.ack) ∧
    ∀ j k, deadline < j →
      (runTask fetch signalAt).get? j ≠ some (TaskAction.deliver k) := by
  have hidx := ackIndex_append_ack _ (runTask_body_no_ack fetch signalAt)
  have hle :
      ((List.range signalAt).flatMap
        (fun t => (fetch t).map TaskAction.deliver)).length ≤ deadline := by
    have := h
    rw [shutdown_source, runTask, hidx] at this
    exact of_decide_eq_true this
  have hlen : (runTask fetch signalAt).length =
      ((List.range signalAt).flatMap
        (fun t => (fetch t).map TaskAction.deliver)).length + 1 := by
    rw [runTask]
    simp
  refine ⟨⟨?_, ?_⟩, ?_⟩
  · rw [hlen]
    exact Nat.succ_le_succ hle
  · rw [hlen, Nat.add_sub_cancel, runTask, List.get?_eq_getElem?]
    exact List.getElem?_concat_length _ _
  · intro j k hj
    have hnone : (runTask fetch signalAt).get? j = none := by
      apply List.get?_eq_none.2
      rw [hlen]
      exact Nat.succ_le_of_lt (Nat.lt_of_le_of_lt hle hj)
    rw [hnone]
    exact fun hc => Option.noConfusion hc

/-- Witness for C3 at a concrete run: the fetch schedule delivering Event
`t` at tick `t`, signalled before tick 2, shut down with deadline 10; the
call returns true and no delivery occurs at position 11. -/
theorem shutdown_source_true_terminates_witness :
    (runTask exampleFetch 2).get? 11 ≠ some (TaskAction.deliver 5) :=
  (shutdown_source_true_terminates exampleFetch 2 10 (by decide)).2 11 5
    (by decide)

/-- Claim C5: every Event produced by the Decoding Pipeline — for every
source component type name, every decoding format and every payload —
carries the `source_type` field equal to the Source's component type name
at the moment it is returned. -/
theorem decodePipeline_stamps_source_type (sourceType : String)
    (fmt : DecodingFormat) (payload : String) (e : Event)
    (h : e ∈ (decodePipeline sourceType fmt payload).events) :
    ("source_type", sourceType) ∈ e.fields := by
  rcases List.mem_filterMap.1 h with ⟨r, _, hr⟩
  cases r with
  | ok e0 =>
    have he : e = stampSourceType sourceType e0 := (Option.some.inj hr).symm
    rw [he, stampSourceType]
    exact List.mem_append.2 (Or.inr (List.mem_singleton.2 rfl))
  | error m => exact Option.noConfusion hr

/-- Witness for C5: the Bytes decode of payload "hello" for component type
"http_scrape" produces an event carrying the source_type field. -/
theorem decodePipeline_stamps_source_type_witness :
    ("source_type", "http_scrape") ∈
      (Event.mk EventKind.log
        [("body", "hello"), ("source_type", "http_scrape")]).fields :=
  decodePipeline_stamps_source_type "http_scrape" DecodingFormat.bytes "hello"
    (Event.mk EventKind.log [("body", "hello"), ("source_type", "http_scrape")])
    (by decide)

/-- Claim C6: Bytes decoding never produces a decode error, and on any
non-empty payload it yields exactly one Log event whose body field equals
the payload (stamped with the source type). -/
theorem bytes_decode_single_log (sourceType payload : String) :
    (decodePipeline sourceType DecodingFormat.bytes payload).errors = [] ∧
    (payload ≠ "" →
      (decodePipeline sourceType DecodingFormat.bytes payload).events =
        [⟨EventKind.log, [("body", payload), ("source_type", sourceType)]⟩]) := by
  by_cases hp : payload = ""
  · subst hp
    exact ⟨rfl, fun hc => absurd rfl hc⟩
  · constructor
    · simp [decodePipeline, frames, hp, decodeRecord]
    · intro _
      simp [decodePipeline, frames, hp, decodeRecord, stampSourceType]

/-- Witness for C6: decoding the non-empty payload "hello" with Bytes for
component type "http_scrape" yields the single stamped Log event. -/
theorem bytes_decode_single_log_witness :
    (decodePipeline "http_scrape" DecodingFormat.bytes "hello").events =
      [⟨EventKind.log, [("body", "hello"), ("source_type", "http_scrape")]⟩] :=
  (bytes_decode_single_log "http_scrape" "hello").2 (by decide)

/-- A run whose every attempt fails at transport level delivers no Event
and emits exactly one ConnectionError per attempt, in order. -/
theorem pollRun_map_err (sourceType : String) (fmt : DecodingFormat)
    (msgs : List String) :
    pollRun sourceType fmt (msgs.map FetchResult.err) =
      ([], msgs.map RuntimeInternalEvent.connectionError) := by
  induction msgs with
  | nil => rfl
  | cons m msgs ih =>
    simp only [List.map_cons, pollRun, pollAttempt, ih]
    rfl

/-- A run of `n` attempts that all fail with the same message delivers no
Event and emits exactly one ConnectionError per attempt. -/
theorem pollRun_replicate_err (sourceType : String) (fmt : DecodingFormat)
    (n : Nat) (m : String) :
    pollRun sourceType fmt (List.replicate n (FetchResult.err m)) =
      ([], List.replicate n (RuntimeInternalEvent.connectionError m)) := by
  induction n with
  | zero => rfl
  | succ n ih =>
    simp only [List.replicate_succ, pollRun, pollAttempt, ih]
    rfl

/-- A run of `n` attempts that all fetch the same body forwards the decoded
Events of that body once per attempt, in order. -/
theorem pollRun_replicate_ok (sourceType : String) (fmt : DecodingFormat)
    (n : Nat) (body : String) :
    pollRun sourceType fmt (List.replicate n (FetchResult.ok body)) =
      ((List.replicate n
          (decodePipeline sourceType fmt body).events).flatten,
       (List.replicate n
          ((decodePipeline sourceType fmt body).errors.map
            RuntimeInternalEvent.decodeError)).flatten) := by
  induction n with
  | zero => rfl
  | succ n ih =>
    simp only [List.replicate_succ, pollRun, pollAttempt, ih,
      List.flatten_cons]

/-- Claim C7: a poll-mode source with an unreachable endpoint, scraping at
1-second intervals for 3 seconds (so the number of completed attempts is
within one of 3/1), delivers zero Events, emits one ConnectionError
InternalEvent per attempt — hence at least two — and the loop survives
every attempt rather than crashing or aborting. -/
theorem invalid_endpoint_run (sourceType : String) (fmt : DecodingFormat)
    (msgs : List String) (n : Nat) (hn : msgs.length = n)
    (ha : attemptsWithinOne 3 1 n) :
    (pollRun sourceType fmt (msgs.map FetchResult.err)).1 = [] ∧
    (pollRun sourceType fmt (msgs.map FetchResult.err)).2 =
      msgs.map RuntimeInternalEvent.connectionError ∧
    2 ≤ (pollRun sourceType fmt (msgs.map FetchResult.err)).2.length := by
  have hrun := pollRun_map_err sourceType fmt msgs
  refine ⟨by rw [hrun], by rw [hrun], ?_⟩
  rw [hrun]
  simp only [List.length_map, hn]
  rcases ha with ⟨h1, _⟩
  omega

/-- Witness for C7: three failing attempts — a count within one of 3/1 —
yield zero Events and three ConnectionError InternalEvents. -/
theorem invalid_endpoint_run_witness :
    (pollRun "http_scrape" DecodingFormat.bytes
        (["a", "b", "c"].map FetchResult.err)).1 = [] ∧
    (pollRun "http_scrape" DecodingFormat.bytes
        (["a", "b", "c"].map FetchResult.err)).2 =
      ["a", "b", "c"].map RuntimeInternalEvent.connectionError ∧
    2 ≤ (pollRun "http_scrape" DecodingFormat.bytes
        (["a", "b", "c"].map FetchResult.err)).2.length :=
  invalid_endpoint_run "http_scrape" DecodingFormat.bytes ["a", "b", "c"] 3
    rfl (by constructor <;> decide)

/-- Claim C8: against an endpoint protected by Basic credentials, a
poll-mode source with no credentials or with any wrong credential pair
delivers zero Events and emits exactly one error InternalEvent per attempt,
while the same source with the correct credentials delivers the decoded
Events of the protected body on every attempt. -/
theorem auth_protected_runs (requiredUser requiredPass body sourceType : String)
    (fmt : DecodingFormat) (n : Nat) (creds : AuthSetting)
    (hw : creds ≠ AuthSetting.basic requiredUser requiredPass) :
    pollRun sourceType fmt
        (List.replicate n (protectedFetch requiredUser requiredPass body creds)) =
      ([], List.replicate n
        (RuntimeInternalEvent.connectionError "401 unauthorized")) ∧
    pollRun sourceType fmt
        (List.replicate n (protectedFetch requiredUser requiredPass body
          (AuthSetting.basic requiredUser requiredPass))) =
      ((List.replicate n
          (decodePipeline sourceType fmt body).events).flatten,
       (List.replicate n
          ((decodePipeline sourceType fmt body).errors.map
            RuntimeInternalEvent.decodeError)).flatten) := by
  constructor
  · have hfetch : protectedFetch requiredUser requiredPass body creds =
        FetchResult.err "401 unauthorized" := by
      cases creds with
      | noCreds => rfl
      | basic u p =>
        rw [protectedFetch, if_neg]
        rintro ⟨rfl, rfl⟩
        exact hw rfl
    rw [hfetch]
    exact pollRun_replicate_err sourceType fmt n _
  · have hfetch : protectedFetch requiredUser requiredPass body
        (AuthSetting.basic requiredUser requiredPass) = FetchResult.ok body := by
      rw [protectedFetch, if_pos ⟨rfl, rfl⟩]
    rw [hfetch]
    exact pollRun_replicate_ok sourceType fmt n body

/-- Witness for C8: the auth-gated endpoint requiring user/pass, fetched
twice with no credentials and twice with the correct pair. -/
theorem auth_protected_runs_witness :
    pollRun "http_scrape" DecodingFormat.bytes
        (List.replicate 2
          (protectedFetch "user" "pass" "hello" AuthSetting.noCreds)) =
      ([], List.replicate 2
        (RuntimeInternalEvent.connectionError "401 unauthorized")) ∧
    pollRun "http_scrape" DecodingFormat.bytes
        (List.replicate 2 (protectedFetch "user" "pass" "hello"
          (AuthSetting.basic "user" "pass"))) =
      ((List.replicate 2
          (decodePipeline "http_scrape" DecodingFormat.bytes "hello").events).flatten,
       (List.replicate 2
          ((decodePipeline "http_scrape" DecodingFormat.bytes "hello").errors.map
            RuntimeInternalEvent.decodeError)).flatten) :=
  auth_protected_runs "user" "pass" "hello" "http_scrape"
    DecodingFormat.bytes 2 AuthSetting.noCreds (by decide)

end VectorSrc
